import Mathlib

/-!
Shallow embedding of the simulation engine of the 5g-latency-optimization
repository (package `slicemaster`): the slice admission / sharing logic
(`Slice.py`), the client consume / release / disconnect steps and the
connect counter flow (`Client.py`), and the per-period statistics counters
(`Stats.py`).  Python floats are modelled as exact rationals; the simpy
`Container` is modelled by its `level` field, `get`/`put` being subtraction
and addition on it.
-/

namespace SliceMaster

/-- State of a `Slice` object (src/slicemaster/Slice.py): the numeric fields
read or written by `get_consumable_share`, `is_avaliable`,
`update_latency_stats` and `_adapt_reserved_capacity`, plus the `level` of
the simpy capacity container. -/
structure SliceSt where
  connected_users : ℚ
  delay_tolerance : ℚ
  qos_class : ℤ
  bandwidth_guaranteed : ℚ
  bandwidth_max : ℚ
  init_capacity : ℚ
  reserved_capacity : ℚ
  latency_history : List ℚ
  avg_latency : ℚ
  sla_violations : ℕ
  capacity_level : ℚ
deriving DecidableEq

/-- Embedding of `Slice.get_consumable_share` (Slice.py lines 25-38). -/
def get_consumable_share (s : SliceSt) : ℚ :=
  if s.connected_users ≤ 0 then
    min s.init_capacity s.bandwidth_max
  else if s.qos_class ≤ 2 then
    min (min (s.init_capacity / s.connected_users) s.bandwidth_max * 1.2) s.bandwidth_max
  else
    min (s.init_capacity / s.connected_users) s.bandwidth_max

/-- Embedding of `Slice.is_avaliable` (Slice.py lines 40-58).  Note the
second, latency-conservative check compares `connected_users` against
`real_cap / (bandwidth_guaranteed * 1.5)` where `real_cap` does NOT have
`reserved_capacity` subtracted. -/
def is_avaliable (s : SliceSt) : Bool :=
  let real_cap := min s.init_capacity s.bandwidth_max
  let available_cap := real_cap - s.reserved_capacity
  let bandwidth_next := available_cap / (s.connected_users + 1)
  if bandwidth_next < s.bandwidth_guaranteed then
    false
  else if s.qos_class ≤ 2 ∧ s.avg_latency > 0.7 * s.delay_tolerance ∧
      s.connected_users ≥ real_cap / (s.bandwidth_guaranteed * 1.5) then
    false
  else
    true

/-- Embedding of `Slice._adapt_reserved_capacity` (Slice.py lines 79-96). -/
def adapt_reserved_capacity (s : SliceSt) : SliceSt :=
  if s.latency_history.length < 5 then s
  else
    let recent := s.latency_history.drop (s.latency_history.length - 5)
    let recent_avg := recent.sum / (recent.length : ℚ)
    if recent_avg > s.avg_latency ∧ recent_avg > 0.8 * s.delay_tolerance then
      { s with
        reserved_capacity := min (s.init_capacity * 0.1) (s.reserved_capacity + s.init_capacity * 0.02) }
    else if recent_avg < s.avg_latency ∧ recent_avg < 0.5 * s.delay_tolerance then
      { s with reserved_capacity := max 0 (s.reserved_capacity - s.init_capacity * 0.01) }
    else s

/-- The history push, average update and SLA check of
`Slice.update_latency_stats` (Slice.py lines 60-74): append the new value,
drop the oldest entry when the size exceeds 100, recompute the average,
count an SLA violation when the new latency exceeds the tolerance. -/
def push_latency (s : SliceSt) (new_latency : ℚ) : SliceSt :=
  let h1 := s.latency_history ++ [new_latency]
  let h2 := if 100 < h1.length then h1.tail else h1
  { s with
    latency_history := h2,
    avg_latency := if h2 = [] then s.avg_latency else h2.sum / (h2.length : ℚ),
    sla_violations :=
      if new_latency > s.delay_tolerance then s.sla_violations + 1 else s.sla_violations }

/-- Embedding of `Slice.update_latency_stats` (Slice.py lines 60-77): the
push followed by the reservation adaptation. -/
def update_latency_stats (s : SliceSt) (new_latency : ℚ) : SliceSt :=
  adapt_reserved_capacity (push_latency s new_latency)

/-- State of a `Client` object (src/slicemaster/Client.py): the fields read
or written by `start_consume`, `release_consume`, `disconnect` and
`_update_latency_stats`.  `allocated_bandwidth` is optional because the
attribute is only present on a client if something has set it (`Client.__init__`
never does); `hasattr` is modelled by the option being `some`. -/
structure ClientSt where
  connected : Bool
  usage_remaining : ℚ
  last_usage : ℚ
  request_start_time : ℚ
  latencies : List ℚ
  avg_latency : ℚ
  last_latency : ℚ
  max_latency : ℚ
  min_latency : ℚ
  total_consume_time : ℚ
  total_usage : ℚ
  allocated_bandwidth : Option ℚ
deriving DecidableEq

/-- Embedding of `Client._update_latency_stats` (Client.py lines 227-238),
without the side call to the stat collector. -/
def client_update_latency_stats (c : ClientSt) (new_latency : ℚ) : ClientSt :=
  { c with
    last_latency := new_latency,
    max_latency := if new_latency > c.max_latency then new_latency else c.max_latency,
    min_latency := if new_latency < c.min_latency then new_latency else c.min_latency,
    avg_latency := c.latencies.sum / (c.latencies.length : ℚ) }

/-- The amount computed by `Client.start_consume` (Client.py lines 183-200):
`min(s.get_consumable_share(), usage_remaining)`, boosted by 1.2 (still
capped by `usage_remaining`) when `delay_tolerance < 10`. -/
def start_consume_amount (s : SliceSt) (usage_remaining : ℚ) : ℚ :=
  let amount := min (get_consumable_share s) usage_remaining
  if s.delay_tolerance < 10 then min (amount * 1.2) usage_remaining else amount

/-- Embedding of `Client.start_consume` (Client.py lines 183-200): record the
request start time, compute the amount, acquire it from the slice capacity
container and remember it in `last_usage`. -/
def start_consume (c : ClientSt) (s : SliceSt) (now : ℚ) : ClientSt × SliceSt :=
  let amount := start_consume_amount s c.usage_remaining
  ({ c with request_start_time := now, last_usage := amount },
   { s with capacity_level := s.capacity_level - amount })

/-- Embedding of `Client.release_consume` (Client.py lines 202-225): when
`last_usage > 0`, put the units back, record the service latency, update the
rolling latency statistics and the cumulative counters; otherwise do
nothing. -/
def release_consume (c : ClientSt) (s : SliceSt) (now : ℚ) : ClientSt × SliceSt :=
  if c.last_usage > 0 then
    let s1 := { s with capacity_level := s.capacity_level + c.last_usage }
    let service_latency := now - c.request_start_time
    let c1 := { c with latencies := c.latencies ++ [service_latency] }
    let c2 := client_update_latency_stats c1 service_latency
    ({ c2 with
       total_consume_time := c2.total_consume_time + 1,
       total_usage := c2.total_usage + c2.last_usage,
       usage_remaining := c2.usage_remaining - c2.last_usage,
       last_usage := 0 }, s1)
  else (c, s)

/-- Embedding of `Client.disconnect` (Client.py lines 173-181): when already
disconnected only a message is printed; otherwise the slice user count is
decremented and the flag cleared.  The returned boolean is
`not self.connected` evaluated at the end of the method. -/
def disconnect (c : ClientSt) (s : SliceSt) : (ClientSt × SliceSt) × Bool :=
  if c.connected = false then
    ((c, s), !c.connected)
  else
    (({ c with connected := false }, { s with connected_users := s.connected_users - 1 }), true)

/-- The three per-period counters of `Stats` (src/slicemaster/Stats.py):
the last entry of `connect_attempt`, `block_count` and `handover_count`,
each reset to 0 at the start of an aggregation period. -/
structure StatCounters where
  connect_attempt : ℕ
  block_count : ℕ
  handover_count : ℕ
deriving DecidableEq

/-- Embedding of `Stats.incr_connect_attempt` (Stats.py lines 225-227): the
increment is guarded by `is_client_in_coverage`, whose value for the calling
client is the boolean argument. -/
def incr_connect_attempt (in_area : Bool) (st : StatCounters) : StatCounters :=
  if in_area then { st with connect_attempt := st.connect_attempt + 1 } else st

/-- Embedding of `Stats.incr_block_count` (Stats.py lines 229-231). -/
def incr_block_count (in_area : Bool) (st : StatCounters) : StatCounters :=
  if in_area then { st with block_count := st.block_count + 1 } else st

/-- Embedding of `Stats.incr_handover_count` (Stats.py lines 233-235). -/
def incr_handover_count (in_area : Bool) (st : StatCounters) : StatCounters :=
  if in_area then { st with handover_count := st.handover_count + 1 } else st

/-- The branch conditions met by one call of `Client.connect` (Client.py
lines 132-171): whether the client was already connected, whether its
position lies in the statistics area (`Stats.is_client_in_coverage` depends
only on `x, y`, which `connect` never changes, so one flag covers all three
increments of the call), whether the current slice `is_avaliable()`, whether
the reassignment found a base station, and whether the new slice
`is_avaliable()`. -/
structure ConnectEnv where
  already_connected : Bool
  in_area : Bool
  slice_available : Bool
  new_bs_found : Bool
  new_slice_available : Bool
deriving DecidableEq

/-- Effect of one `Client.connect` call (Client.py lines 132-171) on the
per-period statistics counters: a no-op when already connected; otherwise
one connect-attempt increment, then on failure exactly one of the handover
increment (new station found and its slice available) or the block
increment (new station found, slice unavailable). -/
def connect_counters (e : ConnectEnv) (st : StatCounters) : StatCounters :=
  if e.already_connected then st
  else
    let st1 := incr_connect_attempt e.in_area st
    if e.slice_available then st1
    else if e.new_bs_found && e.new_slice_available then
      incr_handover_count e.in_area st1
    else if e.new_bs_found then
      incr_block_count e.in_area st1
    else st1

/-- The counters accumulated over one aggregation period of `Stats.collect`
(Stats.py lines 54-79): starting from the fresh zeros appended at the period
boundary, fold the counter effect of each `connect` call of the period. -/
def run_period (es : List ConnectEnv) : StatCounters :=
  es.foldl (fun st e => connect_counters e st) ⟨0, 0, 0⟩

/-- Modelled from the spec: the consume amount as the specification
describes it (§4.5 and §9 of the spec, and claim C1) — the client consumes
its allocator-written `allocated_bandwidth` when that field is present and
only otherwise the value of `get_consumable_share()`. -/
def spec_consume_amount (s : SliceSt) (allocated : Option ℚ) : ℚ :=
  match allocated with
  | some a => a
  | none => get_consumable_share s

/-- Modelled from the spec: the availability predicate as claim C2 states
it, with `pool = min(init_capacity, bandwidth_max) - reserved_capacity`
used in BOTH rejection conditions. -/
def is_available_claim (s : SliceSt) : Bool :=
  let pool := min s.init_capacity s.bandwidth_max - s.reserved_capacity
  if pool / (s.connected_users + 1) < s.bandwidth_guaranteed then
    false
  else if s.qos_class ≤ 2 ∧ s.avg_latency > 0.7 * s.delay_tolerance ∧
      s.connected_users ≥ pool / (1.5 * s.bandwidth_guaranteed) then
    false
  else
    true

/-! Helper lemmas shared by several developments. -/

/-- Rejection characterization of `is_avaliable`: false exactly when the
per-user pool after reservation drops below the guarantee, or the
latency-conservative check (whose user threshold uses `real_cap`, without
the reservation subtracted) fires. -/
lemma is_avaliable_eq_false_iff (s : SliceSt) :
    is_avaliable s = false ↔
      (min s.init_capacity s.bandwidth_max - s.reserved_capacity) / (s.connected_users + 1)
          < s.bandwidth_guaranteed ∨
        (s.qos_class ≤ 2 ∧ s.avg_latency > 0.7 * s.delay_tolerance ∧
          s.connected_users ≥ min s.init_capacity s.bandwidth_max / (s.bandwidth_guaranteed * 1.5)) := by
  simp only [is_avaliable]
  split_ifs with h1 h2 <;> simp_all

/-- The consumable share never exceeds `bandwidth_max`: every branch of
`get_consumable_share` ends in a `min` with `bandwidth_max`. -/
lemma get_consumable_share_le (s : SliceSt) :
    get_consumable_share s ≤ s.bandwidth_max := by
  unfold get_consumable_share
  split_ifs <;> exact min_le_right _ _

lemma adapt_reserved_capacity_init (s : SliceSt) :
    (adapt_reserved_capacity s).init_capacity = s.init_capacity := by
  simp only [adapt_reserved_capacity]
  split_ifs <;> rfl

lemma adapt_reserved_capacity_history (s : SliceSt) :
    (adapt_reserved_capacity s).latency_history = s.latency_history := by
  simp only [adapt_reserved_capacity]
  split_ifs <;> rfl

/-- The reservation-adaptation step preserves `0 ≤ reserved_capacity ≤
0.1 * init_capacity`: a raise is the old value plus `0.02 * init_capacity`
capped at `0.1 * init_capacity`, a lowering is the old value minus
`0.01 * init_capacity` floored at 0. -/
lemma adapt_reserved_capacity_bounds (s : SliceSt) (h0 : 0 ≤ s.init_capacity)
    (h1 : 0 ≤ s.reserved_capacity) (h2 : s.reserved_capacity ≤ 0.1 * s.init_capacity) :
    0 ≤ (adapt_reserved_capacity s).reserved_capacity ∧
      (adapt_reserved_capacity s).reserved_capacity ≤ 0.1 * s.init_capacity := by
  simp only [adapt_reserved_capacity]
  split_ifs with ha hb hc
  · exact ⟨h1, h2⟩
  · simp only
    constructor
    · apply le_min (by linarith) (by linarith)
    · calc s.init_capacity * 0.1 ⊓ (s.reserved_capacity + s.init_capacity * 0.02)
          ≤ s.init_capacity * 0.1 := min_le_left _ _
        _ ≤ 0.1 * s.init_capacity := by linarith
  · simp only
    constructor
    · exact le_max_left _ _
    · apply max_le (by linarith) (by linarith)
  · exact ⟨h1, h2⟩

lemma push_latency_reserved (s : SliceSt) (l : ℚ) :
    (push_latency s l).reserved_capacity = s.reserved_capacity := rfl

lemma push_latency_init (s : SliceSt) (l : ℚ) :
    (push_latency s l).init_capacity = s.init_capacity := rfl

/-- The history push keeps the size bound: an element is appended and, when
the size then exceeds 100, the oldest one is dropped. -/
lemma push_latency_history_le (s : SliceSt) (l : ℚ)
    (h : s.latency_history.length ≤ 100) :
    (push_latency s l).latency_history.length ≤ 100 := by
  simp only [push_latency]
  split_ifs with hl
  · simp only [List.length_tail, List.length_append, List.length_singleton] at *
    omega
  · simp only [List.length_append, List.length_singleton] at *
    omega

/-- One `connect` call preserves `block_count + handover_count ≤
connect_attempt`: the attempt counter is incremented first (when the client
counts for statistics at all), and at most one of the block or handover
counters is incremented afterwards, under the same area guard. -/
lemma connect_counters_inv (e : ConnectEnv) (st : StatCounters)
    (h : st.block_count + st.handover_count ≤ st.connect_attempt) :
    (connect_counters e st).block_count + (connect_counters e st).handover_count
      ≤ (connect_counters e st).connect_attempt := by
  simp only [connect_counters, incr_connect_attempt, incr_block_count, incr_handover_count]
  split_ifs <;> simp_all <;> omega

lemma run_period_aux (es : List ConnectEnv) :
    ∀ st : StatCounters, st.block_count + st.handover_count ≤ st.connect_attempt →
      (es.foldl (fun st e => connect_counters e st) st).block_count +
          (es.foldl (fun st e => connect_counters e st) st).handover_count
        ≤ (es.foldl (fun st e => connect_counters e st) st).connect_attempt := by
  induction es with
  | nil => intro st h; simpa using h
  | cons e es ih =>
      intro st h
      simpa using ih (connect_counters e st) (connect_counters_inv e st h)

/-! Concrete states used to evaluate the definitions. -/

/-- A slice with one connected user, tolerance 100, QoS class 3,
capacity 10 of which only level 2 remains in the container. -/
def exSliceA : SliceSt :=
  { connected_users := 1, delay_tolerance := 100, qos_class := 3,
    bandwidth_guaranteed := 1, bandwidth_max := 10, init_capacity := 10,
    reserved_capacity := 0, latency_history := [], avg_latency := 0,
    sla_violations := 0, capacity_level := 2 }

/-- A low-latency slice under latency pressure with a positive reservation:
nine users, guarantee 2, capacity 30, reservation 3, average latency 8
against tolerance 10. -/
def exSliceB : SliceSt :=
  { connected_users := 9, delay_tolerance := 10, qos_class := 1,
    bandwidth_guaranteed := 2, bandwidth_max := 30, init_capacity := 30,
    reserved_capacity := 3, latency_history := [], avg_latency := 8,
    sla_violations := 0, capacity_level := 27 }

/-- A slice whose guarantee 20 exceeds what the capacity 10 can offer even
to a single user, so admission is rejected already at zero users. -/
def exSliceC : SliceSt :=
  { connected_users := 0, delay_tolerance := 100, qos_class := 3,
    bandwidth_guaranteed := 20, bandwidth_max := 10, init_capacity := 10,
    reserved_capacity := 0, latency_history := [], avg_latency := 0,
    sla_violations := 0, capacity_level := 10 }

/-- A disconnected, idle-release client holding a pending request of 4
units and carrying an allocator field value of 2. -/
def exClient : ClientSt :=
  { connected := false, usage_remaining := 4, last_usage := 0,
    request_start_time := 0, latencies := [], avg_latency := 0,
    last_latency := 0, max_latency := 0, min_latency := 0,
    total_consume_time := 0, total_usage := 0, allocated_bandwidth := some 2 }

/-! Theorems settling the claims. -/

/-- Claim C1, counterexample: at the concrete client `exClient` (which
carries `allocated_bandwidth = some 2`) consuming on slice `exSliceA`, the
amount the consume (Lock) step acquires is 4, not the allocator-written 2
that the claim's rule prescribes: `start_consume` never reads
`allocated_bandwidth`. -/
theorem claim1_counterexample :
    (start_consume exClient exSliceA 0).1.last_usage
      ≠ spec_consume_amount exSliceA exClient.allocated_bandwidth := by
  norm_num [start_consume, start_consume_amount, get_consumable_share,
    spec_consume_amount, exClient, exSliceA, min_def]

/-- Claim C1, amended: the consume (Lock) step ignores `allocated_bandwidth`
entirely — for every value (or absence) of that field the amount consumed
equals `start_consume_amount`, computed from `get_consumable_share()` and
`usage_remaining` alone. -/
theorem claim1_consume_ignores_allocation (c : ClientSt) (s : SliceSt) (now : ℚ) (a : Option ℚ) :
    (start_consume { c with allocated_bandwidth := a } s now).1.last_usage
      = start_consume_amount s c.usage_remaining := rfl

/-- Claim C2, counterexample: on `exSliceB` the claim's rejection condition
holds (9 users ≥ pool/(1.5·guarantee) = 27/3 = 9, with QoS class 1 and
average latency 8 above 0.7·tolerance = 7), so the claim predicts `false`,
but `is_avaliable` returns `true`: its second check compares against
`real_cap/(guarantee·1.5) = 30/3 = 10`, without subtracting the
reservation. -/
theorem claim2_counterexample :
    is_avaliable exSliceB = true ∧ is_available_claim exSliceB = false := by
  constructor
  · norm_num [is_avaliable, exSliceB, min_def]
  · norm_num [is_available_claim, exSliceB, min_def]

/-- Claim C2, amended: `is_avaliable` returns false exactly when, with
pool = min(init_capacity, bandwidth_max) - reserved_capacity, either
pool/(connected_users+1) < bandwidth_guaranteed, or qos_class ≤ 2 and
avg_latency > 0.7·delay_tolerance and connected_users ≥
min(init_capacity, bandwidth_max)/(bandwidth_guaranteed·1.5); the second
threshold uses the capacity WITHOUT the reservation subtracted. -/
theorem claim2_availability_characterization (s : SliceSt) :
    is_avaliable s = false ↔
      (min s.init_capacity s.bandwidth_max - s.reserved_capacity) / (s.connected_users + 1)
          < s.bandwidth_guaranteed ∨
        (s.qos_class ≤ 2 ∧ s.avg_latency > 0.7 * s.delay_tolerance ∧
          s.connected_users ≥ min s.init_capacity s.bandwidth_max / (s.bandwidth_guaranteed * 1.5)) :=
  is_avaliable_eq_false_iff s

/-- Claim C3, counterexample: on `exSliceA` (container level 2) a client
with 10 units remaining acquires amount 10 > 2 = `capacity.level`:
`get_consumable_share()` is computed from `init_capacity`, not from the
container level, so the Lock phase does not bound the acquired amount by
`capacity.level`. -/
theorem claim3_counterexample :
    exSliceA.capacity_level < start_consume_amount exSliceA 10 := by
  norm_num [start_consume_amount, get_consumable_share, exSliceA, min_def]

/-- Claim C3, amended: the Lock-phase amount is bounded by
`usage_remaining` and by `1.2 · bandwidth_max`, but not by
`capacity.level`. -/
theorem claim3_amount_bounds (s : SliceSt) (u : ℚ) (hb : 0 ≤ s.bandwidth_max) :
    start_consume_amount s u ≤ u ∧ start_consume_amount s u ≤ 1.2 * s.bandwidth_max := by
  have hs := get_consumable_share_le s
  simp only [start_consume_amount]
  split_ifs with hd
  · refine ⟨min_le_right _ _, ?_⟩
    calc min (min (get_consumable_share s) u * 1.2) u
        ≤ min (get_consumable_share s) u * 1.2 := min_le_left _ _
      _ ≤ get_consumable_share s * 1.2 := by
          have hm := min_le_left (get_consumable_share s) u
          linarith
      _ ≤ 1.2 * s.bandwidth_max := by linarith
  · refine ⟨min_le_right _ _, ?_⟩
    calc min (get_consumable_share s) u ≤ get_consumable_share s := min_le_left _ _
      _ ≤ s.bandwidth_max := hs
      _ ≤ 1.2 * s.bandwidth_max := by linarith

/-- Claim C3, witness for the amended bound at a concrete input. -/
theorem claim3_amount_bounds_witness :
    start_consume_amount exSliceA 10 ≤ 10 ∧
      start_consume_amount exSliceA 10 ≤ 1.2 * exSliceA.bandwidth_max :=
  claim3_amount_bounds exSliceA 10 (by norm_num [exSliceA])

/-- Claim C4: admission is monotone — if `is_avaliable` is false, it stays
false after increasing `connected_users` and `reserved_capacity` with the
average latency and all other fields unchanged (stated for well-formed
slices: a positive per-user guarantee and a non-negative user count). -/
theorem claim4_admission_monotone (s : SliceSt) (u r : ℚ)
    (hg : 0 < s.bandwidth_guaranteed)
    (hu0 : 0 ≤ s.connected_users)
    (hu : s.connected_users ≤ u) (hr : s.reserved_capacity ≤ r)
    (hfalse : is_avaliable s = false) :
    is_avaliable { s with connected_users := u, reserved_capacity := r } = false := by
  rw [is_avaliable_eq_false_iff] at hfalse ⊢
  simp only at *
  rcases hfalse with h1 | ⟨hq, ha, h2⟩
  · left
    rcases le_or_lt 0 (min s.init_capacity s.bandwidth_max - r) with hnn | hneg
    · have hd : (min s.init_capacity s.bandwidth_max - r) / (u + 1)
          ≤ (min s.init_capacity s.bandwidth_max - s.reserved_capacity) / (s.connected_users + 1) := by
        apply div_le_div₀ (by linarith) (by linarith) (by linarith) (by linarith)
      linarith
    · have hd : (min s.init_capacity s.bandwidth_max - r) / (u + 1) < 0 :=
        div_neg_of_neg_of_pos hneg (by linarith)
      linarith
  · right
    exact ⟨hq, ha, le_trans h2 hu⟩

/-- Claim C4, witness: `exSliceC` rejects at zero users and reservation
zero, and still rejects with one user and reservation one. -/
theorem claim4_admission_monotone_witness :
    is_avaliable { exSliceC with connected_users := 1, reserved_capacity := 1 } = false :=
  claim4_admission_monotone exSliceC 1 1 (by norm_num [exSliceC]) (by norm_num [exSliceC])
    (by norm_num [exSliceC]) (by norm_num [exSliceC])
    (by norm_num [is_avaliable, exSliceC, min_def])

/-- Claim C6: every call of `update_latency_stats` keeps
`0 ≤ reserved_capacity ≤ 0.1 * init_capacity` (for a non-negative capacity
budget), and leaves `init_capacity` unchanged; a raise adds
`0.02 * init_capacity` capped at `0.1 * init_capacity`, a lowering subtracts
`0.01 * init_capacity` floored at 0. -/
theorem claim6_reservation_bounds (s : SliceSt) (l : ℚ) (h0 : 0 ≤ s.init_capacity)
    (h1 : 0 ≤ s.reserved_capacity) (h2 : s.reserved_capacity ≤ 0.1 * s.init_capacity) :
    0 ≤ (update_latency_stats s l).reserved_capacity ∧
      (update_latency_stats s l).reserved_capacity ≤ 0.1 * s.init_capacity ∧
      (update_latency_stats s l).init_capacity = s.init_capacity := by
  unfold update_latency_stats
  have hb := adapt_reserved_capacity_bounds (push_latency s l)
    (by rw [push_latency_init]; exact h0)
    (by rw [push_latency_reserved]; exact h1)
    (by rw [push_latency_reserved, push_latency_init]; exact h2)
  rw [push_latency_init] at hb
  exact ⟨hb.1, hb.2, by rw [adapt_reserved_capacity_init, push_latency_init]⟩

/-- Claim C6, witness: the bounds hold after pushing latency 1 on
`exSliceA`. -/
theorem claim6_reservation_bounds_witness :
    0 ≤ (update_latency_stats exSliceA 1).reserved_capacity ∧
      (update_latency_stats exSliceA 1).reserved_capacity ≤ 0.1 * exSliceA.init_capacity ∧
      (update_latency_stats exSliceA 1).init_capacity = exSliceA.init_capacity :=
  claim6_reservation_bounds exSliceA 1 (by norm_num [exSliceA]) (by norm_num [exSliceA])
    (by norm_num [exSliceA])

/-- Claim C7: `update_latency_stats` preserves
`len(latency_history) ≤ 100` — the push drops the oldest entry whenever the
size exceeds 100, and the adaptation step does not touch the history. -/
theorem claim7_latency_history_bound (s : SliceSt) (l : ℚ)
    (h : s.latency_history.length ≤ 100) :
    (update_latency_stats s l).latency_history.length ≤ 100 := by
  unfold update_latency_stats
  rw [adapt_reserved_capacity_history]
  exact push_latency_history_le s l h

/-- Claim C7, witness: the bound holds after pushing latency 1 on
`exSliceA`. -/
theorem claim7_latency_history_bound_witness :
    (update_latency_stats exSliceA 1).latency_history.length ≤ 100 :=
  claim7_latency_history_bound exSliceA 1 (by simp [exSliceA])

/-- Claim C8: over any aggregation period (any sequence of `connect` calls
folded from the fresh zero counters), the block increments plus the handover
increments never exceed the connect-attempt increments: each call increments
the attempt counter at most once and then at most one of the block or
handover counters. -/
theorem claim8_block_handover_accounting (es : List ConnectEnv) :
    (run_period es).block_count + (run_period es).handover_count
      ≤ (run_period es).connect_attempt :=
  run_period_aux es ⟨0, 0, 0⟩ (by simp)

/-- Claim C9: with `last_usage = 0`, `release_consume` is a no-op — the
guard `last_usage > 0` fails, so `capacity.put` is never called and the
client counters, latency series and slice state are all unchanged. -/
theorem claim9_release_noop (c : ClientSt) (s : SliceSt) (now : ℚ)
    (h : c.last_usage = 0) :
    release_consume c s now = (c, s) := by
  unfold release_consume
  rw [h]
  simp

/-- Claim C9, witness: releasing on the idle client `exClient` changes
nothing. -/
theorem claim9_release_noop_witness :
    release_consume exClient exSliceA 0 = (exClient, exSliceA) :=
  claim9_release_noop exClient exSliceA 0 rfl

/-- Claim C10: calling `disconnect` on an already-disconnected client
leaves the client and the slice unchanged (no user-count decrement, no
capacity change) and returns `true` (`not self.connected`). -/
theorem claim10_disconnect_noop (c : ClientSt) (s : SliceSt)
    (h : c.connected = false) :
    disconnect c s = ((c, s), true) := by
  unfold disconnect
  rw [h]
  simp

/-- Claim C10, witness: disconnecting the already-disconnected `exClient`
changes nothing. -/
theorem claim10_disconnect_noop_witness :
    disconnect exClient exSliceA = ((exClient, exSliceA), true) :=
  claim10_disconnect_noop exClient exSliceA rfl

end SliceMaster
